import Mathlib

/-!
Verification of the AlfaGestion document-processing repository
(`lector_liquidaciones_to_json_v1.py`, `agente_procesar_cliente.py`,
`ia_backend_transport.py`) against its natural-language specification.

Shallow embedding conventions:
* Python `float` amounts are modelled as `ℚ`.  All the arithmetic the
  claims exercise stays well inside the range where binary doubles behave
  like exact decimals, and every concrete evaluation avoids half-cent
  rounding ties, where Python's round-half-even and the model's
  round-half-up could differ.
* Python strings are modelled as Lean `String`s; text normalisation
  (`_norm_text`, `.upper()`, `.strip()`, `\w`, `\s`, `\d`) is modelled at
  the ASCII level (Unicode NFD mark-stripping is the identity on ASCII).
* Python regular-expression searches used by the grouper are modelled by
  explicit leftmost-match backtracking functions over `List Char`.
-/

namespace AlfaDocs

attribute [local semireducible] Rat.add Rat.mul Rat.inv Rat.sub Rat.ofScientific

/-- ASCII uppercase of one character, modelling `str.upper` on ASCII text. -/
def asciiUpper (c : Char) : Char :=
  if 'a' ≤ c ∧ c ≤ 'z' then Char.ofNat (c.toNat - 32) else c

/-- ASCII lowercase of one character, modelling `str.lower` on ASCII text. -/
def asciiLower (c : Char) : Char :=
  if 'A' ≤ c ∧ c ≤ 'Z' then Char.ofNat (c.toNat + 32) else c

/-- Characters treated as whitespace by Python `str.strip` / regex `\s` (ASCII part). -/
def isPySpace (c : Char) : Bool :=
  c = ' ' || c = '\t' || c = '\n' || c = '\x0d' || c = '\x0c' || c = '\x0b'

/-- ASCII decimal digit test (regex `\d`, ASCII part). -/
def isDigitC (c : Char) : Bool :=
  '0' ≤ c && c ≤ '9'

/-- Regex word character `\w` (ASCII part): letters, digits, underscore. -/
def isWordC (c : Char) : Bool :=
  isDigitC c || ('A' ≤ c && c ≤ 'Z') || ('a' ≤ c && c ≤ 'z') || c = '_'

/-- `str.strip` on a character list. -/
def stripL (l : List Char) : List Char :=
  ((l.dropWhile isPySpace).reverse.dropWhile isPySpace).reverse

/-- `str.strip` on strings. -/
def stripS (s : String) : String :=
  String.mk (stripL s.data)

/-- Uppercasing a string (ASCII model of `str.upper`). -/
def upperS (s : String) : String :=
  String.mk (s.data.map asciiUpper)

/-- Lowercasing a string (ASCII model of `str.lower`). -/
def lowerS (s : String) : String :=
  String.mk (s.data.map asciiLower)

/-- `_norm_text`: NFD-decompose, drop combining marks, uppercase.  On the
ASCII texts the claims quantify over, this is exactly ASCII uppercasing. -/
def norm_text (s : String) : String :=
  upperS s

/-- Does `pat` occur at the head of `s`?  (helper for substring search). -/
def headMatch : List Char → List Char → Bool
  | [], _ => true
  | _ :: _, [] => false
  | p :: ps, c :: cs => p = c && headMatch ps cs

/-- Substring containment on character lists (Python `pat in s`). -/
def hasSubL (s pat : List Char) : Bool :=
  match s with
  | [] => headMatch pat []
  | _ :: cs => headMatch pat s || hasSubL cs pat

/-- Substring containment on strings (Python `pat in s`). -/
def hasSub (s pat : String) : Bool :=
  hasSubL s.data pat.data

/-- Python `s.startswith(pat)` (character-level). -/
def startsWithS (s pat : String) : Bool :=
  headMatch pat.data s.data

/-- Python slicing `s[n:]` (character-level). -/
def dropS (s : String) (n : Nat) : String :=
  String.mk (s.data.drop n)

/-- Fuel-driven scanner for `str.replace`: leftmost, non-overlapping.  The
pattern is never empty where this is used; each match consumes at least one
character, so fuel `length + 1` is enough. -/
def replaceAllF : Nat → List Char → List Char → List Char → List Char
  | 0, l, _, _ => l
  | _ + 1, [], _, _ => []
  | fuel + 1, c :: cs, pat, rep =>
    if !pat.isEmpty && headMatch pat (c :: cs) then
      rep ++ replaceAllF fuel ((c :: cs).drop pat.length) pat rep
    else c :: replaceAllF fuel cs pat rep

/-- Python `s.replace(pat, rep)` on non-empty patterns. -/
def replaceAllS (s pat rep : String) : String :=
  String.mk (replaceAllF (s.data.length + 1) s.data pat.data rep.data)

/-- Split a line at its first `|`, i.e. Python `ln.split("|", 1)`;
`none` when the line has no `|`. -/
def splitBar : List Char → Option (List Char × List Char)
  | [] => none
  | c :: cs =>
    if c = '|' then some ([], cs)
    else (splitBar cs).map (fun p => (c :: p.1, p.2))

/-! ## `_parse_number` (Numeric Normalizer) -/

/-- First cleanup step of `_parse_number`: keep digits, comma, dot, minus
(`re.sub(r"[^\d,.\-]", "", s)`). -/
def keepNumeric (l : List Char) : List Char :=
  l.filter (fun c => isDigitC c || c = ',' || c = '.' || c = '-')

/-- The last separator character (`,` or `.`) of the cleaned string, if any.
`rfind(".") > rfind(",")` holds exactly when this is `'.'`. -/
def lastSep (l : List Char) : Option Char :=
  l.foldl (fun acc c => if c = '.' || c = ',' then some c else acc) none

/-- Decimal-separator disambiguation of `_parse_number`: with both `,` and `.`
present, drop thousands separators depending on which comes last; with only
`,`, turn it into a decimal dot. -/
def sepNormalize (l : List Char) : List Char :=
  if l.contains ',' && l.contains '.' then
    if lastSep l = some '.' then l.filter (fun c => c ≠ ',')
    else (l.filter (fun c => c ≠ '.')).map (fun c => if c = ',' then '.' else c)
  else if l.contains ',' then l.map (fun c => if c = ',' then '.' else c)
  else l

/-- Value of a digit list read as a natural number. -/
def digitsVal (l : List Char) : Nat :=
  l.foldl (fun acc c => acc * 10 + (c.toNat - '0'.toNat)) 0

/-- Python `float(s)` on a cleaned numeric string (only digits, `.`, `-`
possible at this point): optional leading minus, digits around at most one
dot, at least one digit, nothing else.  `none` models `ValueError`. -/
def pyFloatQ (l : List Char) : Option ℚ :=
  let (neg, body) :=
    match l with
    | '-' :: rest => (true, rest)
    | _ => (false, l)
  let intPart := body.takeWhile isDigitC
  let rest := body.drop intPart.length
  let fracPart? : Option (List Char) :=
    match rest with
    | [] => some []
    | '.' :: fr => if fr.all isDigitC then some fr else none
    | _ => none
  match fracPart? with
  | none => none
  | some fracPart =>
    if intPart.length + fracPart.length = 0 then none
    else
      let mag : ℚ :=
        (digitsVal intPart : ℚ) + (digitsVal fracPart : ℚ) / ((10 : ℚ) ^ fracPart.length)
      some (if neg then -mag else mag)

/-- `_parse_number(raw)`: total, locale-tolerant number parser; `0` on any
unparsable input. -/
def parse_number (raw : String) : ℚ :=
  let s0 := stripL raw.data
  if s0 = [] then 0
  else
    let s1 := keepNumeric s0
    if s1 = [] then 0
    else (pyFloatQ (sepNormalize s1)).getD 0

/-! ## Rounding (`_round2` and 2-decimal formatting) -/

/-- Rounding to two decimals, modelling `float(f"{val:.2f}")` / `round(x, 2)`.
Round-half-up; the document amounts the claims evaluate never sit on
half-cent ties, where Python's half-even behaviour would differ. -/
def round2 (x : ℚ) : ℚ :=
  (round (100 * x) : ℤ) / 100

/-- The snap used throughout the reconciliation code:
`if abs(val) < 0.005: val = 0.0`, followed by printing with two decimals.
The result is the numeric value carried by the emitted ledger line. -/
def snapRound2 (x : ℚ) : ℚ :=
  round2 (if |x| < 1 / 200 then 0 else x)

/-! ## `_classify_concept_name` (Concept Classifier) -/

/-- The ordered keyword rule chain of `_classify_concept_name`, applied to the
already normalised (`_norm_text`) label `t`. -/
def classify_norm (t : String) : String :=
  if hasSub t "RET_GAN" then "RET_GAN"
  else if hasSub t "RET_IIBB" then "RET_IIBB"
  else if hasSub t "RET_IVA" then "RET_IVA"
  else if hasSub t "IVA_CREDITO" then "IVA_CREDITO"
  else if hasSub t "BANCO" then "BANCO"
  else if hasSub t "ACREDITADO" || hasSub t "LIQUIDADO" || hasSub t "NETO DE PAGOS"
      || hasSub t "NETO A COBRAR" || hasSub t "A DEPOSITAR" then "BANCO"
  else if hasSub t "ARANCEL" || hasSub t "COMISION" || hasSub t "CARGO" then "GASTO"
  else if hasSub t "IMPUESTO" && !hasSub t "IVA" && !hasSub t "GANANCIAS"
      && !hasSub t "IIBB" && !hasSub t "INGRESOS" then "GASTO"
  else if (hasSub t "GASTO" || hasSub t "COMISION") && !hasSub t "IVA"
      && !hasSub t "CREDITO" then "GASTO"
  else if hasSub t "IVA" && (hasSub t "ARANCEL" || hasSub t "COMISION" || hasSub t "GASTO") then
    "IVA_CREDITO"
  else if (hasSub t "IVA" && hasSub t "RET") || (hasSub t "IVA" && hasSub t "PERCEP")
      || hasSub t "R.G. 2408" || hasSub t "RG 2408" then "RET_IVA"
  else if hasSub t "INGRESOS" || hasSub t "IIBB" || hasSub t "SIRTAC"
      || hasSub t "ING.BRUTOS" || hasSub t "ING. BRUTOS" || hasSub t "ING BRUTOS" then "RET_IIBB"
  else if hasSub t "GANANCIAS" || (hasSub t "RET" && hasSub t "GAN") || hasSub t "RG 830" then
    "RET_GAN"
  else if (hasSub t "IVA" && hasSub t "CREDITO") || hasSub t "CRED.FISC"
      || hasSub t "CRED FISC" || (hasSub t "IVA" && hasSub t "CRED" && hasSub t "FISC") then
    "IVA_CREDITO"
  else if hasSub t "TARJETA" && !hasSub t "IVA" then "TARJETA"
  else "OTROS"

/-- `_classify_concept_name(concept)`: normalise, then apply the rule chain. -/
def classify_concept_name (concept : String) : String :=
  classify_norm (norm_text concept)

/-! ## `_apply_keywords_to_main` and `_postprocess_output` -/

/-- The fixed category order of the final ledger lines. -/
def categories : List String :=
  ["TARJETA", "BANCO", "GASTO", "IVA_CREDITO", "RET_IVA", "RET_IIBB", "RET_GAN", "OTROS"]

/-- `fallback_by_position`: 1-based data-row position to category, default
`OTROS` (Python `dict.get(row_idx, "OTROS")`). -/
def fallback_by_position (i : Nat) : String :=
  if i = 1 then "TARJETA"
  else if i = 2 then "BANCO"
  else if i = 3 then "GASTO"
  else if i = 4 then "IVA_CREDITO"
  else if i = 5 then "RET_IVA"
  else if i = 6 then "RET_IIBB"
  else if i = 7 then "RET_GAN"
  else if i = 8 then "OTROS"
  else "OTROS"

/-- The per-row category decision of `_apply_keywords_to_main` (its loop body
after the header filters): classify; generic `OTRO`/`OTROS`/`OTHER` labels
fall back to the position table; a first row still classified `OTROS`
becomes `TARJETA`. -/
def row_category (concept : String) (rowIdx : Nat) : String :=
  let cat := classify_concept_name concept
  let cat :=
    if cat = "OTROS" && (norm_text concept = "OTRO" || norm_text concept = "OTROS"
        || norm_text concept = "OTHER") then
      fallback_by_position rowIdx
    else cat
  if rowIdx = 1 && cat = "OTROS" then "TARJETA" else cat

/-- The data-row filter of `_apply_keywords_to_main`: split at the first `|`,
strip both parts, drop header rows (`CONCEPTO`/`TIPO`/`TIPOCONCEPTOIA`
concepts and `TOTAL`/`IMPORTE` totals). -/
def parse_data_row (ln : String) : Option (String × String) :=
  match splitBar ln.data with
  | none => none
  | some (c, t) =>
    let concept := stripS (String.mk c)
    let total := stripS (String.mk t)
    if norm_text concept = "CONCEPTO" || norm_text concept = "TIPO"
        || norm_text concept = "TIPOCONCEPTOIA" then none
    else if norm_text total = "TOTAL" || norm_text total = "IMPORTE" then none
    else some (concept, total)

/-- Per-category sum of the data rows, each row classified through
`row_category` at its 1-based position. -/
def category_sums (rows : List (String × String)) (cat : String) : ℚ :=
  (((List.range rows.length).zip rows).filterMap
    (fun p => if row_category p.2.1 (p.1 + 1) = cat then some (parse_number p.2.2) else none)).sum

/-- `_normalize_total_for_category` on the numeric value: force the sign
(`TARJETA` non-negative, all else non-positive), round to two decimals,
snap values below half a cent to `0`.  The Python code routes the value
through `str()` and `_parse_number`, an exact round trip at these
magnitudes. -/
def normalize_total_for_category (value : ℚ) (category : String) : ℚ :=
  snapRound2 (if category = "TARJETA" then |value| else -|value|)

/-- `_apply_keywords_to_main(lines)`: collapse the main-section rows into the
eight canonical `CATEGORY|amount` lines, represented as label–amount pairs
(the amount is the numeric value of the printed two-decimal text). -/
def apply_keywords_to_main (lines : List String) : List (String × ℚ) :=
  let rows := lines.filterMap parse_data_row
  categories.map (fun cat => (cat, normalize_total_for_category (category_sums rows cat) cat))

/-- The line cleanup of `_postprocess_output`: strip, drop blank lines and
markdown artifacts. -/
def clean_lines (raw : List String) : List String :=
  (raw.map stripS).filter
    (fun l => l ≠ "" && !startsWithS l "```" && !startsWithS l "**" && l ≠ "---")

/-- The main section of `_postprocess_output`: cleaned lines before the
`CONTROL_TOTALES_DIARIOS` marker. -/
def main_section (raw : List String) : List String :=
  (clean_lines raw).takeWhile (fun l => norm_text l ≠ "CONTROL_TOTALES_DIARIOS")

/-- `_postprocess_output` restricted to the main ledger section: `none` when
the cleaned text is empty (the original text is then returned unchanged),
otherwise the eight collapsed category lines. -/
def postprocess_main (raw : List String) : Option (List (String × ℚ)) :=
  if clean_lines raw = [] then none
  else some (apply_keywords_to_main (main_section raw))

/-! ## Canonical category totals (`_parse_output_totals`, `_format_output_from_totals`) -/

/-- The eight canonical category totals of a ledger output. -/
structure CatTotals where
  tarjeta : ℚ
  banco : ℚ
  gasto : ℚ
  iva_credito : ℚ
  ret_iva : ℚ
  ret_iibb : ℚ
  ret_gan : ℚ
  otros : ℚ
deriving DecidableEq, Repr

/-- All-zero category totals (the dict initialisation of `_parse_output_totals`). -/
def CatTotals.zero : CatTotals :=
  ⟨0, 0, 0, 0, 0, 0, 0, 0⟩

/-- Store a value under a category name (Python `totals[cat] = v`; the
classifier only produces the eight canonical names, anything else lands in
`OTROS` as in the source's fallback). -/
def CatTotals.set (t : CatTotals) (cat : String) (v : ℚ) : CatTotals :=
  if cat = "TARJETA" then { t with tarjeta := v }
  else if cat = "BANCO" then { t with banco := v }
  else if cat = "GASTO" then { t with gasto := v }
  else if cat = "IVA_CREDITO" then { t with iva_credito := v }
  else if cat = "RET_IVA" then { t with ret_iva := v }
  else if cat = "RET_IIBB" then { t with ret_iibb := v }
  else if cat = "RET_GAN" then { t with ret_gan := v }
  else { t with otros := v }

/-- `_parse_output_totals(text)`: scan the `CONCEPT|amount` lines, classify
each concept, and keep (assignment, not accumulation) the parsed amount per
category. -/
def parse_output_totals (lines : List String) : CatTotals :=
  lines.foldl
    (fun t ln =>
      match splitBar ln.data with
      | none => t
      | some (c, v) =>
        t.set (classify_concept_name (stripS (String.mk c))) (parse_number (stripS (String.mk v))))
    CatTotals.zero

/-- `_format_output_from_totals(totals)`: the eight emitted ledger lines,
amounts sign-forced, snapped below half a cent, and printed with two
decimals (modelled by their numeric value). -/
def format_output_from_totals (t : CatTotals) : List (String × ℚ) :=
  [("TARJETA", snapRound2 |t.tarjeta|),
   ("BANCO", snapRound2 (-|t.banco|)),
   ("GASTO", snapRound2 (-|t.gasto|)),
   ("IVA_CREDITO", snapRound2 (-|t.iva_credito|)),
   ("RET_IVA", snapRound2 (-|t.ret_iva|)),
   ("RET_IIBB", snapRound2 (-|t.ret_iibb|)),
   ("RET_GAN", snapRound2 (-|t.ret_gan|)),
   ("OTROS", snapRound2 (round2 t.otros))]

/-- The algebraic sum of all eight category amounts of a ledger output. -/
def CatTotals.sum (t : CatTotals) : ℚ :=
  t.tarjeta + t.banco + t.gasto + t.iva_credito + t.ret_iva + t.ret_iibb + t.ret_gan + t.otros

/-! ## Daily rows and the Banco Nación column output -/

/-- A reconstructed daily block: optional date plus a concept→amount map
(a Python dict, modelled as an association list with distinct keys). -/
structure DailyRow where
  fecha : String
  concepts : List (String × ℚ)
deriving DecidableEq, Repr

/-- Dict read with default `0.0` (`totals.get(label, 0.0)`). -/
def alGet (m : List (String × ℚ)) (k : String) : ℚ :=
  match m with
  | [] => 0
  | (k', v) :: rest => if k' = k then v else alGet rest k

/-- Dict write (`totals[label] = v`): replace the first entry with key `k`,
or append a new entry. -/
def alSet (m : List (String × ℚ)) (k : String) (v : ℚ) : List (String × ℚ) :=
  match m with
  | [] => [(k, v)]
  | (k', v') :: rest => if k' = k then (k, v) :: rest else (k', v') :: alSet rest k v

/-- `_totals_from_daily_rows(daily_rows)`: sum every concept column across
the rows. -/
def totals_from_daily_rows (rows : List DailyRow) : List (String × ℚ) :=
  rows.foldl
    (fun m r => r.concepts.foldl (fun m' kv => alSet m' kv.1 (alGet m' kv.1 + kv.2)) m)
    []

/-- Preferred column order of `_build_output_from_daily_columns`. -/
def preferredCols : List String :=
  ["VENTAS C/DESCUENTO CONTADO",
   "ARANCEL",
   "IVA CRED.FISC.COMERCIO S/ARANC 21,00%",
   "RETENCION ING.BRUTOS SIRTAC",
   "PERCEPCION IVA R.G. 2408 3,00 %",
   "RETENCION IVA",
   "RETENCION GANANCIAS",
   "IMPORTE NETO DE PAGOS"]

/-- Lexicographic `≤` on characters by code point (Python string order). -/
def charListLe : List Char → List Char → Bool
  | [], _ => true
  | _ :: _, [] => false
  | a :: as, b :: bs =>
    if a.toNat < b.toNat then true
    else if a.toNat = b.toNat then charListLe as bs
    else false

/-- Python string `≤` (code-point lexicographic). -/
def strLe (a b : String) : Bool :=
  charListLe a.data b.data

/-- Insertion into a list sorted by the Boolean relation `le`. -/
def insertByB (le : α → α → Bool) (x : α) : List α → List α
  | [] => [x]
  | y :: ys => if le x y then x :: y :: ys else y :: insertByB le x ys

/-- Insertion sort by a Boolean relation, modelling Python `sorted`. -/
def sortByB (le : α → α → Bool) (l : List α) : List α :=
  l.foldr (insertByB le) []

/-- The column list of `_build_output_from_daily_columns`: preferred names
first, remaining concept names sorted. -/
def colsOf (totals : List (String × ℚ)) : List String :=
  preferredCols.filter (fun c => (totals.map Prod.fst).contains c)
    ++ sortByB strLe ((totals.map Prod.fst).filter (fun c => !preferredCols.contains c))

/-- The header-net correction inside `_build_output_from_daily_columns`:
when a header net figure exists, the rows have a net column, and the summed
net differs from the header by more than `max(1.0, 0.2%)`, force the net
column to the header figure and recompute the sale column as header net
plus all other charges. -/
def adjusted_totals (totals : List (String × ℚ)) : Option ℚ → List (String × ℚ)
  | none => totals
  | some nh =>
    if (totals.map Prod.fst).contains "IMPORTE NETO DE PAGOS" then
      let neto_calc := alGet totals "IMPORTE NETO DE PAGOS"
      if |neto_calc - nh| > max 1 (nh * (2 / 1000)) then
        let t2 := alSet totals "IMPORTE NETO DE PAGOS" nh
        let cargos :=
          ((t2.filter (fun kv =>
            kv.1 ≠ "VENTAS C/DESCUENTO CONTADO" && kv.1 ≠ "IMPORTE NETO DE PAGOS")).map
              Prod.snd).sum
        alSet t2 "VENTAS C/DESCUENTO CONTADO" (nh + cargos)
      else totals
    else totals

/-- `_build_output_from_daily_columns(daily_rows, neto_header)`: one line per
column (columns fixed before the header-net correction), sale columns
positive, every other column negative, printed with two decimals. -/
def build_output_from_daily_columns (rows : List DailyRow) (neto_header : Option ℚ) :
    List (String × ℚ) :=
  let totals := totals_from_daily_rows rows
  if totals = [] then []
  else
    let cols := colsOf totals
    let t3 := adjusted_totals totals neto_header
    cols.map (fun c =>
      let v := alGet t3 c
      (c, round2 (if hasSub (upperS c) "VENTAS" then |v| else -|v|)))

/-- The aggregate sale/net snapshot used by `_filter_daily_rows_for_bank_nacion`. -/
def rowsVentasNeto (rows : List DailyRow) : ℚ × ℚ :=
  let t := totals_from_daily_rows rows
  (alGet t "VENTAS C/DESCUENTO CONTADO", alGet t "IMPORTE NETO DE PAGOS")

/-- The tolerance test of `_filter_daily_rows_for_bank_nacion`. -/
def closeTo (a b : ℚ) : Bool :=
  a > 0 && |a - b| ≤ max 1 (b * (2 / 1000))

/-- `_filter_daily_rows_for_bank_nacion`: drop partial blocks (those lacking
a positive sale or net entry) only when the unfiltered totals disagree with
the header figures and the filtered totals agree. -/
def filter_daily_rows_for_bank_nacion (rows : List DailyRow)
    (total_presentado neto_header : Option ℚ) : List DailyRow :=
  if rows = [] then rows
  else
    let base := rowsVentasNeto rows
    let okV := total_presentado.all (fun tp => closeTo base.1 tp)
    let okN := neto_header.all (fun nh => closeTo base.2 nh)
    if okV && okN then rows
    else
      let filtered := rows.filter (fun r =>
        alGet r.concepts "VENTAS C/DESCUENTO CONTADO" > 0
          && alGet r.concepts "IMPORTE NETO DE PAGOS" > 0)
      if filtered = [] then rows
      else
        let base2 := rowsVentasNeto filtered
        let okV2 := total_presentado.all (fun tp => closeTo base2.1 tp)
        let okN2 := neto_header.all (fun nh => closeTo base2.2 nh)
        if okV2 && okN2 then filtered else rows

/-! ## `_apply_pdf_overrides` (Reconciliation Engine) -/

/-- The `BankStatementTotals` snapshot assembled by `_extract_pdf_totals`. -/
structure PdfTotals where
  total_presentado : Option ℚ
  neto_header : Option ℚ
  bank_nacion : Bool
  bank_patagonia : Bool
  patagonia_desglose : List (String × ℚ)
  saldo : Option ℚ
  ventas_sum : ℚ
  arancel_sum : ℚ
  iva_sum : ℚ
  ret_iva_sum : ℚ
  ret_iibb_sum : ℚ
  ret_gan_sum : ℚ
  neto_sum : ℚ
  has_daily : Bool
  daily_rows : List DailyRow
deriving DecidableEq, Repr

/-- The Patagonia branch of `_apply_pdf_overrides`: `TOTAL PRESENTADO`
positive, each discount-breakdown label negative, `SALDO` negative. -/
def patagonia_lines (pt : PdfTotals) : List (String × ℚ) :=
  (match pt.total_presentado with
   | some tp => [("TOTAL PRESENTADO", round2 tp)]
   | none => [])
  ++ pt.patagonia_desglose.map (fun it => (it.1, round2 (-|it.2|)))
  ++ (match pt.saldo with
      | some s => [("SALDO", round2 (-|s|))]
      | none => [])

/-- The VAT sum after the consistency recomputation at the top of the
override branch: when fee data exists and the extracted VAT is zero or
off the 21%-of-fees figure by more than `0.05`, the recomputed figure
replaces it. -/
def iva_sum_eff (pt : PdfTotals) : ℚ :=
  if pt.has_daily && pt.arancel_sum > 0 then
    if pt.iva_sum ≤ 0 || |pt.iva_sum - round2 (pt.arancel_sum * (21 / 100))| > 5 / 100 then
      round2 (pt.arancel_sum * (21 / 100))
    else pt.iva_sum
  else pt.iva_sum

/-- The `TARJETA` total after the override branch: the daily sale sum, else
the header presented total, else the oracle-derived figure. -/
def tarjeta_val (t : CatTotals) (pt : PdfTotals) : ℚ :=
  if pt.has_daily && pt.ventas_sum > 0 then pt.ventas_sum
  else pt.total_presentado.getD t.tarjeta

/-- Whether the `TARJETA` override fired. -/
def tarjeta_changed (pt : PdfTotals) : Bool :=
  (pt.has_daily && pt.ventas_sum > 0) || pt.total_presentado.isSome

/-- The condition guarding the sale-minus-charges fallback for `BANCO`. -/
def banco_from_charges (pt : PdfTotals) : Bool :=
  pt.has_daily && pt.ventas_sum > 0
    && (pt.arancel_sum > 0 || iva_sum_eff pt > 0 || pt.ret_iva_sum > 0
        || pt.ret_iibb_sum > 0 || pt.ret_gan_sum > 0)

/-- The `BANCO` total after the override branch: the daily net sum, else
sale minus all charges, else the header net, else the oracle figure. -/
def banco_val (t : CatTotals) (pt : PdfTotals) : ℚ :=
  if pt.has_daily && pt.neto_sum > 0 then pt.neto_sum
  else if banco_from_charges pt then
    pt.ventas_sum
      - (pt.arancel_sum + iva_sum_eff pt + pt.ret_iva_sum + pt.ret_iibb_sum + pt.ret_gan_sum)
  else pt.neto_header.getD t.banco

/-- Whether the `BANCO` override fired. -/
def banco_changed (pt : PdfTotals) : Bool :=
  (pt.has_daily && pt.neto_sum > 0) || banco_from_charges pt || pt.neto_header.isSome

/-- The `GASTO` total after the override branch. -/
def gasto_val (t : CatTotals) (pt : PdfTotals) : ℚ :=
  if pt.has_daily && pt.arancel_sum > 0 then -pt.arancel_sum else t.gasto

/-- The `IVA_CREDITO` total after the override branch. -/
def iva_credito_val (t : CatTotals) (pt : PdfTotals) : ℚ :=
  if pt.has_daily && iva_sum_eff pt > 0 then -iva_sum_eff pt else t.iva_credito

/-- The `RET_IVA` total after the override branch. -/
def ret_iva_val (t : CatTotals) (pt : PdfTotals) : ℚ :=
  if pt.has_daily && pt.ret_iva_sum > 0 then -pt.ret_iva_sum else t.ret_iva

/-- The `RET_IIBB` total after the override branch. -/
def ret_iibb_val (t : CatTotals) (pt : PdfTotals) : ℚ :=
  if pt.has_daily && pt.ret_iibb_sum > 0 then -pt.ret_iibb_sum else t.ret_iibb

/-- The `RET_GAN` total after the override branch. -/
def ret_gan_val (t : CatTotals) (pt : PdfTotals) : ℚ :=
  if pt.has_daily && pt.ret_gan_sum > 0 then -pt.ret_gan_sum else t.ret_gan

/-- Whether any deterministic override fired (the `changed` flag). -/
def override_changed (pt : PdfTotals) : Bool :=
  tarjeta_changed pt || banco_changed pt
    || (pt.has_daily && pt.arancel_sum > 0)
    || (pt.has_daily && iva_sum_eff pt > 0)
    || (pt.has_daily && pt.ret_iva_sum > 0)
    || (pt.has_daily && pt.ret_iibb_sum > 0)
    || (pt.has_daily && pt.ret_gan_sum > 0)

/-- The sum of the seven sign-normalised categories other than `OTROS`. -/
def sum_except_otros (a b c d e f g : ℚ) : ℚ :=
  |a| + -|b| + -|c| + -|d| + -|e| + -|f| + -|g|

/-- The sign normalisation and `OTROS` balancing at the end of the override
branch: `TARJETA` positive, every other category negative, `OTROS` the
negative of the rest unless the rest already sums to within `0.01` of
zero. -/
def norm_with_otros (a b c d e f g : ℚ) : CatTotals :=
  { tarjeta := |a|
    banco := -|b|
    gasto := -|c|
    iva_credito := -|d|
    ret_iva := -|e|
    ret_iibb := -|f|
    ret_gan := -|g|
    otros := if |sum_except_otros a b c d e f g| < 1 / 100 then 0
             else -sum_except_otros a b c d e f g }

/-- The category-override branch of `_apply_pdf_overrides` (everything after
the Patagonia and Banco Nación early returns): recompute an inconsistent
VAT as 21% of the fee sum, override the oracle-derived totals with the
deterministic sums, then sign-normalise and force `OTROS` to balance.
`none` when no override applied (the oracle text passes through). -/
def override_totals (t : CatTotals) (pt : PdfTotals) : Option CatTotals :=
  if override_changed pt then
    some (norm_with_otros (tarjeta_val t pt) (banco_val t pt) (gasto_val t pt)
      (iva_credito_val t pt) (ret_iva_val t pt) (ret_iibb_val t pt) (ret_gan_val t pt))
  else none

/-- `_apply_pdf_overrides(text, pdf_totals)`: branch dispatch of the
reconciliation engine.  The result is the list of emitted `CONCEPT|amount`
ledger lines (the prepended header block carries no amounts); in the
pass-through branch the oracle lines are re-read as label–amount pairs. -/
def apply_pdf_overrides (textLines : List String) (pt : PdfTotals) : List (String × ℚ) :=
  if pt.bank_patagonia && pt.patagonia_desglose ≠ [] then
    patagonia_lines pt
  else
    let nacionLines :=
      if pt.bank_nacion && pt.daily_rows ≠ [] then
        build_output_from_daily_columns
          (filter_daily_rows_for_bank_nacion pt.daily_rows pt.total_presentado pt.neto_header)
          pt.neto_header
      else []
    if nacionLines ≠ [] then nacionLines
    else
      match override_totals (parse_output_totals textLines) pt with
      | some n => format_output_from_totals n
      | none =>
        textLines.filterMap (fun ln =>
          (splitBar ln.data).map (fun p =>
            (stripS (String.mk p.1), parse_number (stripS (String.mk p.2)))))

/-- A concrete Patagonia snapshot: presented total 100, one breakdown item
of 5, balance 50 (a statement whose breakdown does not cover the whole
discount). -/
def patagonia_example_totals : PdfTotals :=
  { total_presentado := some 100
    neto_header := none
    bank_nacion := false
    bank_patagonia := true
    patagonia_desglose := [("DESCUENTO GENERAL", 5)]
    saldo := some 50
    ventas_sum := 0
    arancel_sum := 0
    iva_sum := 0
    ret_iva_sum := 0
    ret_iibb_sum := 0
    ret_gan_sum := 0
    neto_sum := 0
    has_daily := false
    daily_rows := [] }

/-- A concrete daily-totals snapshot whose per-category figures carry
sub-cent decimals (`2.004`, `1.004`, `0.504`, `3.004`), so that the
two-decimal printing of each ledger line accumulates a visible rounding
drift. -/
def override_example_totals : PdfTotals :=
  { total_presentado := none
    neto_header := none
    bank_nacion := false
    bank_patagonia := false
    patagonia_desglose := []
    saldo := none
    ventas_sum := 10
    arancel_sum := 2004 / 1000
    iva_sum := 0
    ret_iva_sum := 0
    ret_iibb_sum := 1004 / 1000
    ret_gan_sum := 504 / 1000
    neto_sum := 3004 / 1000
    has_daily := true
    daily_rows := [] }

/-! ## Header amount assignment (`_extract_pdf_totals`, lines after
`_extract_header_amounts`) -/

/-- Descending `≥` on rationals as a Boolean relation
(`sorted(..., reverse=True)`). -/
def qGe (a b : ℚ) : Bool :=
  b ≤ a

/-- Python truthiness `or` on an optional float: `None` and `0.0` are both
replaced by the new value. -/
def pyOrQ (prev : Option ℚ) (v : ℚ) : Option ℚ :=
  match prev with
  | none => some v
  | some p => if p = 0 then some v else some p

/-- The header-total assignment step of `_extract_pdf_totals`: from the
positive currency amounts found near the `Total presentado` / `Neto de
pagos` labels, take the distinct values sorted descending; with two or
more, the largest becomes the presented total and the second the net
figure (each only where not already set); with exactly one, only the
presented total is set. -/
def assign_header_amounts (prevTp prevNet : Option ℚ) (hdrAmounts : List ℚ) :
    Option ℚ × Option ℚ :=
  if prevTp = none || prevNet = none then
    if hdrAmounts ≠ [] then
      match sortByB qGe hdrAmounts.dedup with
      | a :: b :: _ => (pyOrQ prevTp a, pyOrQ prevNet b)
      | [a] => (if prevTp = none then some a else prevTp, prevNet)
      | [] => (prevTp, prevNet)
    else (prevTp, prevNet)
  else (prevTp, prevNet)

/-! ## `ia_backend_transport` configuration (C9) -/

/-- A process environment: variable name to optional value (`os.getenv`). -/
def Env : Type :=
  String → Option String

/-- `os.getenv(k) or ""`. -/
def getenvD (env : Env) (k : String) : String :=
  (env k).getD ""

/-- Python string truthiness `a or b`. -/
def pyOrS (a b : String) : String :=
  if a = "" then b else a

/-- `DEFAULT_IA_BACKEND_URL` (hard-coded, non-empty). -/
def DEFAULT_IA_BACKEND_URL : String :=
  "http://alfanetac.ddns.net:8805"

/-- The base URL resolved by `backend_enabled` / `call_backend`:
`(os.getenv("IA_BACKEND_URL") or "").strip() or DEFAULT_IA_BACKEND_URL`. -/
def resolved_backend_url (env : Env) : String :=
  pyOrS (stripS (getenvD env "IA_BACKEND_URL")) DEFAULT_IA_BACKEND_URL

/-- `backend_enabled()`: truthiness of the resolved base URL. -/
def backend_enabled (env : Env) : Bool :=
  resolved_backend_url env ≠ ""

/-- The client id resolved by `call_backend`, with the demo default. -/
def resolved_client_id (env : Env) : String :=
  pyOrS (stripS (getenvD env "IA_CLIENT_ID")) "cliente_demo"

/-- The client secret resolved by `call_backend`, with the demo default. -/
def resolved_client_secret (env : Env) : String :=
  pyOrS (stripS (getenvD env "IA_CLIENT_SECRET")) "cambiar_por_secreto_largo"

/-- The reader `worker`'s configuration-error test:
`if not use_backend and not api_key: raise SystemExit(...)`. -/
def worker_missing_key_error (env : Env) : Bool :=
  !backend_enabled env && stripS (getenvD env "OPENAI_API_KEY") = ""

/-- `call_backend`'s credential check:
`if not client_id or not client_secret: raise SystemExit(...)`. -/
def call_backend_credentials_error (env : Env) : Bool :=
  resolved_client_id env = "" || resolved_client_secret env = ""

/-! ## Orchestrator marker gate (`_process_folder`, `_read_status_from_log`) -/

/-- `_read_status_from_log`: the value of the first `STATUS=` line of the
marker file, stripped and uppercased. -/
def read_status_from_log (lines : List String) : Option String :=
  (lines.find? (fun l => startsWithS l "STATUS=")).map
    (fun l => upperS (stripS (dropS l 7)))

/-- Outcome of the per-file marker check at the top of `_process_folder`. -/
inductive MarkerGate where
  | reprocess
  | retry
  | skip
  | fresh
deriving DecidableEq, Repr

/-- The marker gate of `_process_folder`: with a marker present, force mode
reprocesses unconditionally, otherwise only a previous `ERROR` status is
retried and anything else is skipped; without a marker the file is fresh. -/
def marker_gate (logExists force : Bool) (status : Option String) : MarkerGate :=
  if logExists then
    if force then MarkerGate.reprocess
    else if status = some "ERROR" then MarkerGate.retry
    else MarkerGate.skip
  else MarkerGate.fresh

/-- Whether the file reaches the processing loop on this run: it must pass
the marker gate and then the stability gate. -/
def file_enters_processing (logExists force : Bool) (status : Option String)
    (stable : Bool) : Bool :=
  marker_gate logExists force status ≠ MarkerGate.skip && stable

/-! ## Document grouper (`_looks_like_date_token`,
`_looks_like_comprobante_token`, `_extract_provider_date_comprobante`,
`_group_compras_candidates`) -/

/-- Date/voucher separator characters (regex class `[-_/]`). -/
def isSepC (c : Char) : Bool :=
  c = '-' || c = '_' || c = '/'

/-- Exactly `n` digits from the front of `l` (a `\d{n}` step). -/
def takeDigits : Nat → List Char → Option (List Char × List Char)
  | 0, l => some ([], l)
  | _ + 1, [] => none
  | n + 1, c :: cs =>
    if isDigitC c then (takeDigits n cs).map (fun p => (c :: p.1, p.2)) else none

/-- Word boundary after a match: end of input or a non-word character. -/
def boundaryAfter (l : List Char) : Bool :=
  match l with
  | [] => true
  | c :: _ => !isWordC c

/-- The optional tail `(?:[-_/]\d{2,4})?` of the date regex, tried with `n`
digits followed by a trailing `\b`. -/
def dateOptDigits (pre : List Char) (sep : Char) (rest : List Char) (n : Nat) :
    Option (List Char) :=
  match takeDigits n rest with
  | some (ds, r3) => if boundaryAfter r3 then some (pre ++ sep :: ds) else none
  | none => none

/-- After `\d{1,2}[-_/]\d{1,2}` has matched `pre`, finish the date pattern:
greedily try the optional `[-_/]\d{2,4}` (4, 3, then 2 digits), then fall
back to the bare trailing `\b`. -/
def dateTail (pre : List Char) (r2 : List Char) : Option (List Char) :=
  match r2 with
  | [] => some pre
  | c :: rest =>
    if isSepC c then
      dateOptDigits pre c rest 4 <|> dateOptDigits pre c rest 3
        <|> dateOptDigits pre c rest 2
        <|> (if boundaryAfter r2 then some pre else none)
    else if boundaryAfter r2 then some pre else none

/-- One backtracking alternative of the date pattern with `d1` and `d2`
digits in the first two groups. -/
def dateMatchD (l : List Char) (d1 d2 : Nat) : Option (List Char) :=
  match takeDigits d1 l with
  | none => none
  | some (ds1, r1) =>
    match r1 with
    | [] => none
    | s :: r1' =>
      if isSepC s then
        match takeDigits d2 r1' with
        | none => none
        | some (ds2, r2) => dateTail (ds1 ++ s :: ds2) r2
      else none

/-- Match of `\d{1,2}[-_/]\d{1,2}(?:[-_/]\d{2,4})?\b` anchored at the head of
`l`, in backtracking order (greedy digit counts first). -/
def dateMatchAt (l : List Char) : Option (List Char) :=
  dateMatchD l 2 2 <|> dateMatchD l 2 1 <|> dateMatchD l 1 2 <|> dateMatchD l 1 1

/-- Leftmost search for the date pattern with a leading `\b`, scanning with
the previous character as boundary context. -/
def searchDateFrom (prev : Option Char) : List Char → Option (List Char)
  | [] => none
  | c :: cs =>
    let bOk := match prev with
      | none => true
      | some p => !isWordC p
    match (if bOk then dateMatchAt (c :: cs) else none) with
    | some m => some m
    | none => searchDateFrom (some c) cs

/-- `_looks_like_date_token(s)`: the leftmost
`\b(\d{1,2}[-_/]\d{1,2}(?:[-_/]\d{2,4})?)\b` match with `_` and `/`
normalised to `-`. -/
def looks_like_date_token (s : String) : Option String :=
  (searchDateFrom none s.data).map
    (fun m => String.mk (m.map (fun c => if c = '_' || c = '/' then '-' else c)))

/-- Final group of the first voucher regex: `\d{n}` then a trailing `\b`. -/
def compTail (pre : List Char) (l : List Char) (n : Nat) : Option (List Char) :=
  match takeDigits n l with
  | some (ds, r) => if boundaryAfter r then some (pre ++ ds) else none
  | none => none

/-- One alternative of `\d{1,4}\s*[-_/]\s*\d{4,8}\b` with `d1` digits before
the separator, second group greedy (8 down to 4). -/
def compMatchD (l : List Char) (d1 : Nat) : Option (List Char) :=
  match takeDigits d1 l with
  | none => none
  | some (ds1, r1) =>
    let sp1 := r1.takeWhile isPySpace
    let r1' := r1.drop sp1.length
    match r1' with
    | [] => none
    | s :: r2 =>
      if isSepC s then
        let sp2 := r2.takeWhile isPySpace
        let r2' := r2.drop sp2.length
        let pre := ds1 ++ sp1 ++ s :: sp2
        compTail pre r2' 8 <|> compTail pre r2' 7 <|> compTail pre r2' 6
          <|> compTail pre r2' 5 <|> compTail pre r2' 4
      else none

/-- Match of `\d{1,4}\s*[-_/]\s*\d{4,8}\b` anchored at the head of `l`. -/
def compMatchAt (l : List Char) : Option (List Char) :=
  compMatchD l 4 <|> compMatchD l 3 <|> compMatchD l 2 <|> compMatchD l 1

/-- Leftmost search for the first voucher pattern with a leading `\b`. -/
def searchCompFrom (prev : Option Char) : List Char → Option (List Char)
  | [] => none
  | c :: cs =>
    let bOk := match prev with
      | none => true
      | some p => !isWordC p
    match (if bOk then compMatchAt (c :: cs) else none) with
    | some m => some m
    | none => searchCompFrom (some c) cs

/-- Match of `\d{8,14}\b` anchored at the head of `l` (greedy). -/
def comp2MatchAt (l : List Char) : Option (List Char) :=
  compTail [] l 14 <|> compTail [] l 13 <|> compTail [] l 12 <|> compTail [] l 11
    <|> compTail [] l 10 <|> compTail [] l 9 <|> compTail [] l 8

/-- Leftmost search for the bare 8–14 digit voucher pattern with a leading
`\b`. -/
def searchComp2From (prev : Option Char) : List Char → Option (List Char)
  | [] => none
  | c :: cs =>
    let bOk := match prev with
      | none => true
      | some p => !isWordC p
    match (if bOk then comp2MatchAt (c :: cs) else none) with
    | some m => some m
    | none => searchComp2From (some c) cs

/-- `_looks_like_comprobante_token(s)`: the `N-NNNNNNN`-shaped pair (spaces
removed, separators normalised to `-`), else a bare 8–14 digit run. -/
def looks_like_comprobante_token (s : String) : Option String :=
  match searchCompFrom none s.data with
  | some m =>
    some (String.mk ((m.filter (fun c => !isPySpace c)).map
      (fun c => if c = '_' || c = '/' then '-' else c)))
  | none => (searchComp2From none s.data).map String.mk

/-- Fuel-driven scanner collapsing whitespace runs; each step consumes at
least one character, so fuel `length` is enough. -/
def wsCollapseF : Nat → List Char → List Char
  | 0, l => l
  | _ + 1, [] => []
  | fuel + 1, c :: cs =>
    if isPySpace c then ' ' :: wsCollapseF fuel (cs.dropWhile isPySpace)
    else c :: wsCollapseF fuel cs

/-- Collapse every whitespace run into one space (`re.sub(r"\s+", " ", s)`). -/
def wsCollapseL (l : List Char) : List Char :=
  wsCollapseF l.length l

/-- Fuel-driven scanner collapsing runs of non-word characters or
underscores. -/
def nwCollapseF : Nat → List Char → List Char
  | 0, l => l
  | _ + 1, [] => []
  | fuel + 1, c :: cs =>
    if !isWordC c || c = '_' then
      ' ' :: nwCollapseF fuel (cs.dropWhile (fun d => !isWordC d || d = '_'))
    else c :: nwCollapseF fuel cs

/-- Collapse every run of non-word characters or underscores into one space
(`re.sub(r"[\W_]+", " ", s)`). -/
def nwCollapseL (l : List Char) : List Char :=
  nwCollapseF l.length l

/-- The noise words removed from provider names, in alternation order. -/
def noiseWords : List String :=
  ["FAC", "FACT", "FACTURA", "NC", "NOTA", "CREDITO", "COMPROBANTE", "OK"]

/-- First word of `ws` matching at the head of `l` (with its trailing `\b`);
returns the match length. -/
def noiseMatchGo (l : List Char) : List String → Option Nat
  | [] => none
  | w :: ws =>
    if headMatch w.data l && boundaryAfter (l.drop w.data.length) then some w.data.length
    else noiseMatchGo l ws

/-- Does a noise word match at the head of `l`?  Returns the match length. -/
def noiseMatchAt (l : List Char) : Option Nat :=
  noiseMatchGo l noiseWords

/-- Match lengths of non-empty words are positive. -/
theorem noiseMatchGo_pos (l : List Char) :
    ∀ ws : List String, (∀ w ∈ ws, 0 < w.data.length) →
      ∀ n, noiseMatchGo l ws = some n → 0 < n := by
  intro ws
  induction ws with
  | nil => simp [noiseMatchGo]
  | cons w ws ih =>
    intro hws n h
    unfold noiseMatchGo at h
    split at h
    · injection h with h
      subst h
      exact hws w (List.mem_cons_self w ws)
    · exact ih (fun w' hw' => hws w' (List.mem_cons_of_mem w hw')) n h

/-- All noise-word match lengths are positive. -/
theorem noiseMatchAt_pos (l : List Char) (n : Nat) (h : noiseMatchAt l = some n) :
    0 < n :=
  noiseMatchGo_pos l noiseWords (by decide) n h

/-- Fuel-driven scanner for the noise-word substitution; every successful
match consumes at least one character, so fuel `length + 1` is enough. -/
def noiseSubF : Nat → Option Char → List Char → List Char
  | 0, _, l => l
  | _ + 1, _, [] => []
  | fuel + 1, prev, c :: cs =>
    let bOk := match prev with
      | none => true
      | some p => !isWordC p
    match (if bOk then noiseMatchAt (c :: cs) else none) with
    | some n => ' ' :: noiseSubF fuel (some 'C') ((c :: cs).drop n)
    | none => c :: noiseSubF fuel (some c) cs

/-- `re.sub(r"\b(FAC|FACT|FACTURA|NC|NOTA|CREDITO|COMPROBANTE|OK)\b", " ", s)`:
replace each boundary-delimited noise word with a space, scanning left to
right with the previous character as boundary context. -/
def noiseSubL (prev : Option Char) (l : List Char) : List Char :=
  noiseSubF (l.length + 1) prev l

/-- The provider-name derivation inside `_extract_provider_date_comprobante`
(applied only when both tokens were found): uppercase, strip noise words,
strip the two tokens, collapse punctuation and whitespace. -/
def provider_of (s dateTok compTok : String) : String :=
  let p := upperS s
  let p := String.mk (noiseSubL none p.data)
  let p := replaceAllS (replaceAllS p (upperS dateTok) " ") (upperS compTok) " "
  let p := String.mk (nwCollapseL p.data)
  stripS (String.mk (wsCollapseL p.data))

/-- `_extract_provider_date_comprobante(stem)`: whitespace-normalise, extract
the date and voucher tokens (both required), then derive the provider name;
providers shorter than 3 characters are rejected. -/
def extract_provider_date_comprobante (stem : String) :
    Option (String × String × String) :=
  let s := stripS (String.mk (wsCollapseL stem.data))
  match looks_like_date_token s, looks_like_comprobante_token s with
  | some dt, some ct =>
    let prov := provider_of s dt ct
    if prov.length < 3 then none else some (prov, dt, ct)
  | _, _ => none

/-- A candidate purchase-invoice file: name, stem, modification time. -/
structure FileEnt where
  name : String
  stem : String
  mtime : ℚ
deriving DecidableEq, Repr

/-- Append a file to its key's group, keeping dict insertion order
(`defaultdict(list)`). -/
def alAppendFile (m : List ((String × String × String) × List FileEnt))
    (k : String × String × String) (f : FileEnt) :
    List ((String × String × String) × List FileEnt) :=
  match m with
  | [] => [(k, [f])]
  | (k', fs) :: rest =>
    if k' = k then (k', fs ++ [f]) :: rest else (k', fs) :: alAppendFile rest k f

/-- Python sort key `(st_mtime, name.lower())`, as a Boolean `≤`. -/
def fileOrd (a b : FileEnt) : Bool :=
  a.mtime < b.mtime || (a.mtime = b.mtime && strLe (lowerS a.name) (lowerS b.name))

/-- Python sort key `g[0].name.lower()` on groups, as a Boolean `≤`. -/
def groupOrd (g h : List FileEnt) : Bool :=
  strLe (lowerS (((g.map FileEnt.name).headD ""))) (lowerS (((h.map FileEnt.name).headD "")))

/-- One step of the grouping loop of `_group_compras_candidates`: a keyed
file joins its group, a keyless file joins the singles. -/
def group_step (acc : List ((String × String × String) × List FileEnt) × List FileEnt)
    (f : FileEnt) : List ((String × String × String) × List FileEnt) × List FileEnt :=
  match extract_provider_date_comprobante f.stem with
  | none => (acc.1, acc.2 ++ [f])
  | some k => (alAppendFile acc.1 k f, acc.2)

/-- `_group_compras_candidates(files)`: partition by the extracted
(provider, date, voucher) key (keyless files become singletons), sort each
group by modification time then name, and sort the resulting groups by the
first member's name. -/
def group_compras_candidates (files : List FileEnt) : List (List FileEnt) :=
  let acc := files.foldl group_step
    (([] : List ((String × String × String) × List FileEnt)), ([] : List FileEnt))
  let out := acc.1.map (fun kv => sortByB fileOrd kv.2) ++ acc.2.map (fun f => [f])
  sortByB groupOrd out

/-- The spec's first grouping example file (name, stem, modification time). -/
def file_fac_example : FileEnt :=
  ⟨"PROVEEDOR X FAC 0001-00001234.pdf", "PROVEEDOR X FAC 0001-00001234", 0⟩

/-- The spec's second grouping example file. -/
def file_pag2_example : FileEnt :=
  ⟨"PROVEEDOR X 0001-00001234 pag2.pdf", "PROVEEDOR X 0001-00001234 pag2", 0⟩

/-! ## Shared rounding lemmas -/

/-- Two-decimal rounding moves a value by at most half a cent. -/
theorem round2_err (x : ℚ) : |round2 x - x| ≤ 1 / 200 := by
  have h := abs_sub_round (100 * x)
  have heq : round2 x - x = ((round (100 * x) : ℤ) - 100 * x) / 100 := by
    unfold round2; ring
  rw [heq, abs_div]
  rw [show |(100 : ℚ)| = 100 by norm_num]
  rw [div_le_div_iff (by norm_num) (by norm_num)]
  rw [abs_sub_comm] at h
  linarith

/-- Two-decimal rounding preserves non-negativity. -/
theorem round2_nonneg {x : ℚ} (h : 0 ≤ x) : 0 ≤ round2 x := by
  unfold round2
  have hr : (0 : ℤ) ≤ round (100 * x) := by
    rw [round_eq]
    exact Int.le_floor.mpr (by push_cast; linarith)
  positivity

/-- Two-decimal rounding preserves non-positivity. -/
theorem round2_nonpos {x : ℚ} (h : x ≤ 0) : round2 x ≤ 0 := by
  unfold round2
  have hr : round (100 * x) ≤ 0 := by
    rw [round_eq]
    have hle : ⌊(100 * x + 1 / 2 : ℚ)⌋ ≤ ⌊(1 / 2 : ℚ)⌋ := Int.floor_le_floor (by linarith)
    have h12 : ⌊(1 / 2 : ℚ)⌋ = 0 := by norm_num
    omega
  have hc : ((round (100 * x) : ℤ) : ℚ) ≤ 0 := by exact_mod_cast hr
  rw [div_eq_mul_inv]
  exact mul_nonpos_iff.mpr (Or.inr ⟨hc, by norm_num⟩)

/-- The emitted value (snap below half a cent, then two-decimal printing)
moves a value by at most half a cent. -/
theorem snapRound2_err (x : ℚ) : |snapRound2 x - x| ≤ 1 / 200 := by
  unfold snapRound2
  by_cases h : |x| < 1 / 200
  · rw [if_pos h]
    have h0 : round2 (0 : ℚ) = 0 := by
      unfold round2
      norm_num
    rw [h0]
    rw [abs_sub_comm]
    simpa using le_of_lt h
  · rw [if_neg h]
    exact round2_err x

/-- The emitted value preserves non-negativity. -/
theorem snapRound2_nonneg {x : ℚ} (h : 0 ≤ x) : 0 ≤ snapRound2 x := by
  unfold snapRound2
  by_cases hc : |x| < 1 / 200
  · rw [if_pos hc]
    exact round2_nonneg le_rfl
  · rw [if_neg hc]
    exact round2_nonneg h

/-- The emitted value preserves non-positivity. -/
theorem snapRound2_nonpos {x : ℚ} (h : x ≤ 0) : snapRound2 x ≤ 0 := by
  unfold snapRound2
  by_cases hc : |x| < 1 / 200
  · rw [if_pos hc]
    exact round2_nonpos le_rfl
  · rw [if_neg hc]
    exact round2_nonpos h

/-- `round2` is idempotent. -/
theorem round2_round2 (x : ℚ) : round2 (round2 x) = round2 x := by
  unfold round2
  rw [show (100 : ℚ) * ((round (100 * x) : ℤ) / 100) = ((round (100 * x) : ℤ) : ℚ) by ring]
  rw [round_intCast]

/-- The `OTROS` emission (`round2`, snap, print) moves a value by at most
half a cent. -/
theorem otros_emit_err (x : ℚ) : |snapRound2 (round2 x) - x| ≤ 1 / 200 := by
  unfold snapRound2
  by_cases h : |round2 x| < 1 / 200
  · rw [if_pos h]
    have hk : round (100 * x) = 0 := by
      have habs : |((round (100 * x) : ℤ) : ℚ)| < 1 / 2 := by
        unfold round2 at h
        rw [abs_div, show |(100 : ℚ)| = 100 by norm_num] at h
        rw [div_lt_div_iff (by norm_num) (by norm_num)] at h
        linarith
      have h1 : ((|round (100 * x)| : ℤ) : ℚ) < 1 := by
        push_cast
        exact lt_trans habs (by norm_num)
      have h2 : |round (100 * x)| < 1 := by exact_mod_cast h1
      rw [abs_lt] at h2
      omega
    have hx : |x| ≤ 1 / 200 := by
      have h2 := abs_sub_round (100 * x)
      rw [hk] at h2
      simp only [Int.cast_zero, sub_zero] at h2
      rw [abs_mul, show |(100 : ℚ)| = 100 by norm_num] at h2
      linarith
    have h0 : round2 (0 : ℚ) = 0 := by unfold round2; norm_num
    rw [h0, abs_sub_comm]
    simpa using hx
  · rw [if_neg h, round2_round2]
    exact round2_err x

/-! ## Claim C5 -/

/-- Claim C5: the number parser satisfies the spec's test vectors
(`1.234,56` and `1,234.56` both parse to `1234.56`, empty and alphabetic
inputs parse to `0`), and it is total, returning `0` on every input whose
cleaned numeric text is not float-parsable. -/
theorem C5_parse_number_total_and_vectors :
    parse_number "1.234,56" = 123456 / 100 ∧
    parse_number "1,234.56" = 123456 / 100 ∧
    parse_number "" = 0 ∧
    parse_number "abc" = 0 ∧
    ∀ s : String, pyFloatQ (sepNormalize (keepNumeric (stripL s.data))) = none →
      parse_number s = 0 := by
  refine ⟨by decide, by decide, by decide, by decide, ?_⟩
  intro s h
  by_cases h0 : stripL s.data = []
  · simp [parse_number, h0]
  · by_cases h1 : keepNumeric (stripL s.data) = []
    · simp [parse_number, h0, h1]
    · simp [parse_number, h0, h1, h]

/-- Witness for claim C5: the unparsable input `"1-2"` is sent to `0`. -/
theorem C5_witness : parse_number "1-2" = 0 :=
  C5_parse_number_total_and_vectors.2.2.2.2 "1-2" (by decide)

/-! ## Claim C3 -/

/-- Claim C3 counterexample: `IVA ARANCEL` contains `IVA` together with
`ARANCEL` and none of the earlier literal category tokens, yet the
classifier returns `GASTO` (the generic fee rule fires before the composite
IVA rule), not `IVA_CREDITO`. -/
theorem C3_counterexample :
    hasSub "IVA ARANCEL" "IVA" = true ∧
    hasSub "IVA ARANCEL" "ARANCEL" = true ∧
    hasSub "IVA ARANCEL" "RET_GAN" = false ∧
    hasSub "IVA ARANCEL" "RET_IIBB" = false ∧
    hasSub "IVA ARANCEL" "RET_IVA" = false ∧
    hasSub "IVA ARANCEL" "IVA_CREDITO" = false ∧
    hasSub "IVA ARANCEL" "BANCO" = false ∧
    classify_norm "IVA ARANCEL" = "GASTO" := by
  decide

/-- Claim C3 (amended): the composite IVA-plus-fee rule yields `IVA_CREDITO`
only when the co-occurring fee keyword is `GASTO`; a normalized label
containing `IVA` and `GASTO` but none of the earlier literal-category
tokens, none of the bank phrases, and none of the generic fee tokens
`ARANCEL`/`COMISION`/`CARGO` classifies as `IVA_CREDITO`. -/
theorem C3_amended (t : String)
    (hIva : hasSub t "IVA" = true) (hGasto : hasSub t "GASTO" = true)
    (h1 : hasSub t "RET_GAN" = false) (h2 : hasSub t "RET_IIBB" = false)
    (h3 : hasSub t "RET_IVA" = false) (h4 : hasSub t "IVA_CREDITO" = false)
    (h5 : hasSub t "BANCO" = false) (h6 : hasSub t "ACREDITADO" = false)
    (h7 : hasSub t "LIQUIDADO" = false) (h8 : hasSub t "NETO DE PAGOS" = false)
    (h9 : hasSub t "NETO A COBRAR" = false) (h10 : hasSub t "A DEPOSITAR" = false)
    (h11 : hasSub t "ARANCEL" = false) (h12 : hasSub t "COMISION" = false)
    (h13 : hasSub t "CARGO" = false) :
    classify_norm t = "IVA_CREDITO" := by
  unfold classify_norm
  simp [hIva, hGasto, h1, h2, h3, h4, h5, h6, h7, h8, h9, h10, h11, h12, h13]

/-- Witness for the amended claim C3 at the label `IVA GASTO`. -/
theorem C3_amended_witness : classify_norm "IVA GASTO" = "IVA_CREDITO" :=
  C3_amended "IVA GASTO" (by decide) (by decide) (by decide) (by decide) (by decide)
    (by decide) (by decide) (by decide) (by decide) (by decide) (by decide) (by decide)
    (by decide) (by decide) (by decide)

/-! ## Claim C9 -/

/-- Claim C9: `backend_enabled` is `true` in every environment (the
hard-coded default URL is non-empty), so the reader's missing
`OPENAI_API_KEY` configuration error is unreachable; `call_backend` never
fails its credential check, and a fully unset environment silently resolves
to the built-in demo credentials. -/
theorem C9_backend_always_enabled :
    (∀ env : Env, backend_enabled env = true) ∧
    (∀ env : Env, worker_missing_key_error env = false) ∧
    (∀ env : Env, call_backend_credentials_error env = false) ∧
    resolved_client_id (fun _ => none) = "cliente_demo" ∧
    resolved_client_secret (fun _ => none) = "cambiar_por_secreto_largo" := by
  have hurl : ∀ env : Env, backend_enabled env = true := by
    intro env
    unfold backend_enabled resolved_backend_url pyOrS
    by_cases h : stripS (getenvD env "IA_BACKEND_URL") = "" <;> simp [h, DEFAULT_IA_BACKEND_URL]
  have hid : ∀ env : Env, resolved_client_id env ≠ "" := by
    intro env
    unfold resolved_client_id pyOrS
    by_cases h : stripS (getenvD env "IA_CLIENT_ID") = "" <;> simp [h]
  have hsec : ∀ env : Env, resolved_client_secret env ≠ "" := by
    intro env
    unfold resolved_client_secret pyOrS
    by_cases h : stripS (getenvD env "IA_CLIENT_SECRET") = "" <;> simp [h]
  refine ⟨hurl, ?_, ?_, by rfl, by rfl⟩
  · intro env
    unfold worker_missing_key_error
    rw [hurl env]
    rfl
  · intro env
    unfold call_backend_credentials_error
    simp [hid env, hsec env]

/-! ## Claim C10 -/

/-- Claim C10: in the keyword-aggregation pass, the first data row is
reassigned to `TARJETA` whenever it classifies as `OTROS`, and a row whose
concept label is literally `OTRO`/`OTROS`/`OTHER` is reassigned to the
category determined by its 1-based position alone. -/
theorem C10_position_fallback :
    (∀ c : String, classify_concept_name c = "OTROS" → row_category c 1 = "TARJETA") ∧
    (∀ (c : String) (i : Nat),
      norm_text c = "OTRO" ∨ norm_text c = "OTROS" ∨ norm_text c = "OTHER" →
      row_category c i = fallback_by_position i) := by
  constructor
  · intro c h
    unfold row_category
    rw [h]
    by_cases h1 : norm_text c = "OTRO" <;> by_cases h2 : norm_text c = "OTROS" <;>
      by_cases h3 : norm_text c = "OTHER" <;>
        simp +decide [h1, h2, h3, fallback_by_position]
  · intro c i h
    have hcl : classify_concept_name c = "OTROS" := by
      unfold classify_concept_name
      rcases h with h | h | h <;> rw [h] <;> decide
    unfold row_category
    rw [hcl]
    have hb : (norm_text c = "OTRO" || norm_text c = "OTROS" || norm_text c = "OTHER") = true := by
      rcases h with h | h | h <;> simp [h]
    by_cases hi : i = 1
    · subst hi
      simp +decide [hb, fallback_by_position]
    · simp +decide [hb, hi]

/-- Witness for claim C10: an unrecognised first row lands in `TARJETA`, and
a literal `OTROS` in row 3 lands in `GASTO`. -/
theorem C10_witness :
    row_category "ZZZ" 1 = "TARJETA" ∧ row_category "OTROS" 3 = "GASTO" := by
  refine ⟨C10_position_fallback.1 "ZZZ" (by decide), ?_⟩
  rw [C10_position_fallback.2 "OTROS" 3 (by decide)]
  decide

/-! ## Claim C2 -/

/-- Claim C2 counterexample: the oracle line `FOO BAR|10,00` does not pass
through to the main section; the post-processing step replaces it with the
eight canonical category lines (its amount summed into `TARJETA` by the
first-row fallback) and its concept label survives nowhere. -/
theorem C2_counterexample :
    apply_keywords_to_main ["FOO BAR|10,00"] =
      [("TARJETA", 10), ("BANCO", 0), ("GASTO", 0), ("IVA_CREDITO", 0),
       ("RET_IVA", 0), ("RET_IIBB", 0), ("RET_GAN", 0), ("OTROS", 0)] ∧
    "FOO BAR" ∉ (apply_keywords_to_main ["FOO BAR|10,00"]).map Prod.fst := by
  constructor
  · decide
  · decide

/-- Claim C2 (amended): the oracle's main-section lines are not preserved;
whenever the post-processing step returns a main section, it consists of
exactly the eight canonical categories in fixed order, `TARJETA`
non-negative and every other category non-positive. -/
theorem C2_amended (raw : List String) (m : List (String × ℚ))
    (h : postprocess_main raw = some m) :
    m.map Prod.fst = categories ∧
    ∀ p ∈ m, (p.1 = "TARJETA" → 0 ≤ p.2) ∧ (p.1 ≠ "TARJETA" → p.2 ≤ 0) := by
  have hm : m = apply_keywords_to_main (main_section raw) := by
    unfold postprocess_main at h
    split at h
    · cases h
    · exact (Option.some_inj.mp h).symm
  subst hm
  constructor
  · rfl
  · intro p hp
    unfold apply_keywords_to_main categories at hp
    simp only [List.map_cons, List.map_nil, List.mem_cons, List.not_mem_nil, or_false] at hp
    rcases hp with h | h | h | h | h | h | h | h <;> subst h <;>
      constructor <;> intro hcat <;>
        simp_all [normalize_total_for_category] <;>
          first
            | exact snapRound2_nonneg (abs_nonneg _)
            | exact snapRound2_nonpos (neg_nonpos.mpr (abs_nonneg _))

/-- Witness for the amended claim C2 on the single oracle line `X|1,00`. -/
theorem C2_amended_witness :
    ([("TARJETA", (1 : ℚ)), ("BANCO", 0), ("GASTO", 0), ("IVA_CREDITO", 0),
      ("RET_IVA", 0), ("RET_IIBB", 0), ("RET_GAN", 0),
      ("OTROS", 0)].map Prod.fst = categories ∧
     ∀ p ∈ [("TARJETA", (1 : ℚ)), ("BANCO", 0), ("GASTO", 0), ("IVA_CREDITO", 0),
      ("RET_IVA", 0), ("RET_IIBB", 0), ("RET_GAN", 0), ("OTROS", 0)],
       (p.1 = "TARJETA" → 0 ≤ p.2) ∧ (p.1 ≠ "TARJETA" → p.2 ≤ 0)) :=
  C2_amended ["X|1,00"] _ (by decide)

/-! ## Claim C6 -/

/-- Claim C6: with a marker present, force mode reprocesses regardless of
status; without force, a previous `ERROR` status retries (the file enters
processing when stable) and a previous `OK` status skips the file for
good. -/
theorem C6_marker_retry (content : List String) (force stable : Bool) :
    (force = false → read_status_from_log content = some "ERROR" →
      marker_gate true force (read_status_from_log content) = MarkerGate.retry ∧
      file_enters_processing true force (read_status_from_log content) stable = stable) ∧
    (force = false → read_status_from_log content = some "OK" →
      marker_gate true force (read_status_from_log content) = MarkerGate.skip ∧
      file_enters_processing true force (read_status_from_log content) stable = false) ∧
    (force = true →
      marker_gate true force (read_status_from_log content) = MarkerGate.reprocess ∧
      file_enters_processing true force (read_status_from_log content) stable = stable) := by
  refine ⟨?_, ?_, ?_⟩
  · intro hf hs
    subst hf
    rw [hs]
    constructor
    · simp [marker_gate]
    · simp [file_enters_processing, marker_gate]
  · intro hf hs
    subst hf
    rw [hs]
    constructor
    · simp +decide [marker_gate]
    · simp +decide [file_enters_processing, marker_gate]
  · intro hf
    subst hf
    constructor
    · simp [marker_gate]
    · simp [file_enters_processing, marker_gate]

/-- Witness for claim C6 on concrete marker files: a lowercase
`STATUS=error` line retries, `STATUS=OK` never enters processing, and force
mode reprocesses an `OK` marker. -/
theorem C6_witness :
    marker_gate true false (read_status_from_log ["STATUS=error "]) = MarkerGate.retry ∧
    file_enters_processing true false (read_status_from_log ["STATUS=OK"]) true = false ∧
    marker_gate true true (read_status_from_log ["STATUS=OK"]) = MarkerGate.reprocess :=
  ⟨((C6_marker_retry ["STATUS=error "] false true).1 rfl (by decide)).1,
   ((C6_marker_retry ["STATUS=OK"] false true).2.1 rfl (by decide)).2,
   ((C6_marker_retry ["STATUS=OK"] true true).2.2 rfl).1⟩

/-! ## Claim C8 -/

/-- A list without duplicates whose elements are exactly two distinct values
is one of the two orderings of that pair. -/
theorem eq_pair_of_nodup {l : List ℚ} {a b : ℚ} (hnd : l.Nodup)
    (ha : a ∈ l) (hb : b ∈ l) (hab : a ≠ b)
    (hall : ∀ x ∈ l, x = a ∨ x = b) : l = [a, b] ∨ l = [b, a] := by
  cases l with
  | nil => cases ha
  | cons x t =>
    cases t with
    | nil =>
      have hxa : a = x := by simpa using ha
      have hxb : b = x := by simpa using hb
      exact absurd (hxa.trans hxb.symm) hab
    | cons y u =>
      have hnx : x ∉ y :: u := (List.nodup_cons.mp hnd).1
      have hny : y ∉ u := (List.nodup_cons.mp (List.nodup_cons.mp hnd).2).1
      have hxy : x ≠ y := fun h => hnx (h ▸ List.mem_cons_self y u)
      rcases hall x (List.mem_cons_self x _) with hxa | hxb
      · rcases hall y (List.mem_cons_of_mem x (List.mem_cons_self y u)) with hya | hyb
        · exact absurd (hxa.trans hya.symm) hxy
        · have hu : u = [] := by
            rw [List.eq_nil_iff_forall_not_mem]
            intro z hz
            rcases hall z (List.mem_cons_of_mem x (List.mem_cons_of_mem y hz)) with rfl | rfl
            · exact hnx (hxa ▸ List.mem_cons_of_mem y hz)
            · exact hny (hyb ▸ hz)
          subst hu hxa hyb
          exact Or.inl rfl
      · rcases hall y (List.mem_cons_of_mem x (List.mem_cons_self y u)) with hya | hyb
        · have hu : u = [] := by
            rw [List.eq_nil_iff_forall_not_mem]
            intro z hz
            rcases hall z (List.mem_cons_of_mem x (List.mem_cons_of_mem y hz)) with rfl | rfl
            · exact hny (hya ▸ hz)
            · exact hnx (hxb ▸ List.mem_cons_of_mem y hz)
          subst hu hxb hya
          exact Or.inr rfl
        · exact absurd (hxb.trans hyb.symm) hxy

/-- Claim C8: when the header-amount extraction finds exactly two distinct
positive values, the larger is assigned as the presented total and the
smaller as the net figure, so presented ≥ net. -/
theorem C8_two_distinct_header_amounts (hdr : List ℚ) (a b : ℚ)
    (ha : a ∈ hdr) (hb : b ∈ hdr) (hlt : b < a) (hpos : 0 < b)
    (hall : ∀ x ∈ hdr, x = a ∨ x = b) :
    assign_header_amounts none none hdr = (some a, some b) ∧ b ≤ a := by
  have hab : a ≠ b := ne_of_gt hlt
  have hd := eq_pair_of_nodup hdr.nodup_dedup (List.mem_dedup.mpr ha)
    (List.mem_dedup.mpr hb) hab (fun x hx => hall x (List.mem_dedup.mp hx))
  have hne : hdr ≠ [] := by
    intro h
    rw [h] at ha
    cases ha
  have hsorted : sortByB qGe hdr.dedup = [a, b] := by
    rcases hd with h | h <;> rw [h] <;>
      simp [sortByB, insertByB, qGe, le_of_lt hlt, not_le.mpr hlt]
  refine ⟨?_, le_of_lt hlt⟩
  unfold assign_header_amounts
  rw [hsorted]
  simp [hne, pyOrQ]

/-- Witness for claim C8 at the amounts `[50, 100, 50]`. -/
theorem C8_witness :
    assign_header_amounts none none [50, 100, 50] = (some 100, some 50) ∧ (50 : ℚ) ≤ 100 :=
  C8_two_distinct_header_amounts [50, 100, 50] 100 50 (by decide) (by decide)
    (by decide) (by decide) (by decide)

/-! ## Claim C7 -/

/-- Reading a key just written returns the written value. -/
theorem alGet_alSet_self (m : List (String × ℚ)) (k : String) (v : ℚ) :
    alGet (alSet m k v) k = v := by
  induction m with
  | nil => simp [alSet, alGet]
  | cons hd tl ih =>
    obtain ⟨a, b⟩ := hd
    by_cases h : a = k
    · simp [alSet, alGet, h]
    · simp [alSet, alGet, h, ih]

/-- Writing one key leaves every other key unchanged. -/
theorem alGet_alSet_ne (m : List (String × ℚ)) (k k' : String) (v : ℚ) (h : k' ≠ k) :
    alGet (alSet m k v) k' = alGet m k' := by
  have hkk : ¬k = k' := fun hx => h hx.symm
  induction m with
  | nil => simp [alSet, alGet, hkk]
  | cons hd tl ih =>
    obtain ⟨a, b⟩ := hd
    by_cases hh : a = k
    · subst hh
      simp [alSet, alGet, hkk]
    · simp [alSet, alGet, hh, ih]

/-- Writing a key that a filter rejects does not change the filtered list. -/
theorem filter_alSet (m : List (String × ℚ)) (k : String) (v : ℚ)
    (q : String × ℚ → Bool) (hq : ∀ x : ℚ, q (k, x) = false) :
    (alSet m k v).filter q = m.filter q := by
  induction m with
  | nil => simp [alSet, hq]
  | cons hd tl ih =>
    obtain ⟨a, b⟩ := hd
    by_cases h : a = k
    · subst h
      simp [alSet, List.filter, hq, ih]
    · simp [alSet, List.filter, h, ih]

/-- Overwriting the sale column does not change the charges filter
(`suma de cargos`) of `_build_output_from_daily_columns`. -/
theorem filter_alSet_vn (m : List (String × ℚ)) (v : ℚ) :
    (alSet m "VENTAS C/DESCUENTO CONTADO" v).filter
      (fun kv => kv.1 ≠ "VENTAS C/DESCUENTO CONTADO" && kv.1 ≠ "IMPORTE NETO DE PAGOS")
    = m.filter
      (fun kv => kv.1 ≠ "VENTAS C/DESCUENTO CONTADO" && kv.1 ≠ "IMPORTE NETO DE PAGOS") := by
  apply filter_alSet
  intro x
  simp

/-- Claim C7: in `_build_output_from_daily_columns`, when a header net figure
exists, the rows contain a net column, and the summed net differs from the
header by more than `max(1, 0.2%)`, the net column is forced to the header
figure and the sale column is recomputed so that sale = net + all other
charges; sale columns are emitted non-negative and all other columns
non-positive. -/
theorem C7_header_net_adjustment (rows : List DailyRow) (nh : ℚ)
    (hmem : ((totals_from_daily_rows rows).map Prod.fst).contains
      "IMPORTE NETO DE PAGOS" = true)
    (hdiff : |alGet (totals_from_daily_rows rows) "IMPORTE NETO DE PAGOS" - nh|
      > max 1 (nh * (2 / 1000))) :
    (alGet (adjusted_totals (totals_from_daily_rows rows) (some nh))
        "VENTAS C/DESCUENTO CONTADO"
      = nh + (((adjusted_totals (totals_from_daily_rows rows) (some nh)).filter
          (fun kv => kv.1 ≠ "VENTAS C/DESCUENTO CONTADO"
            && kv.1 ≠ "IMPORTE NETO DE PAGOS")).map Prod.snd).sum
     ∧ alGet (adjusted_totals (totals_from_daily_rows rows) (some nh))
        "IMPORTE NETO DE PAGOS" = nh)
    ∧ ∀ p ∈ build_output_from_daily_columns rows (some nh),
        (hasSub (upperS p.1) "VENTAS" = true → 0 ≤ p.2)
        ∧ (hasSub (upperS p.1) "VENTAS" = false → p.2 ≤ 0) := by
  have hadj : adjusted_totals (totals_from_daily_rows rows) (some nh)
      = alSet (alSet (totals_from_daily_rows rows) "IMPORTE NETO DE PAGOS" nh)
          "VENTAS C/DESCUENTO CONTADO"
          (nh + (((alSet (totals_from_daily_rows rows) "IMPORTE NETO DE PAGOS" nh).filter
            (fun kv => kv.1 ≠ "VENTAS C/DESCUENTO CONTADO"
              && kv.1 ≠ "IMPORTE NETO DE PAGOS")).map Prod.snd).sum) := by
    simp only [adjusted_totals]
    rw [if_pos hmem, if_pos hdiff]
  refine ⟨⟨?_, ?_⟩, ?_⟩
  · rw [hadj, alGet_alSet_self, filter_alSet_vn]
  · rw [hadj, alGet_alSet_ne _ _ _ _ (by decide), alGet_alSet_self]
  · intro p hp
    have hT : ¬totals_from_daily_rows rows = [] := by
      intro h
      rw [h] at hmem
      simp [List.contains] at hmem
    unfold build_output_from_daily_columns at hp
    rw [if_neg hT] at hp
    simp only [List.mem_map] at hp
    obtain ⟨c, _, rfl⟩ := hp
    constructor
    · intro h
      simp only [h, if_true]
      exact round2_nonneg (abs_nonneg _)
    · intro h
      simp only [h, Bool.false_eq_true, if_false]
      exact round2_nonpos (neg_nonpos.mpr (abs_nonneg _))

/-- Witness for claim C7 on a concrete single-row statement with header net
`95`: the net column is forced to `95`. -/
theorem C7_witness :
    alGet (adjusted_totals (totals_from_daily_rows
        [⟨"", [("VENTAS C/DESCUENTO CONTADO", 100), ("ARANCEL", 3),
               ("IMPORTE NETO DE PAGOS", 90)]⟩]) (some 95))
      "IMPORTE NETO DE PAGOS" = 95 :=
  ((C7_header_net_adjustment
      [⟨"", [("VENTAS C/DESCUENTO CONTADO", 100), ("ARANCEL", 3),
             ("IMPORTE NETO DE PAGOS", 90)]⟩] 95 (by decide) (by decide)).1).2

/-! ## Claim C1 -/

/-- After the `OTROS` balancing, the eight category totals sum to within
`0.01` of zero (exactly zero when `OTROS` was forced). -/
theorem norm_with_otros_sum_lt (a b c d e f g : ℚ) :
    |CatTotals.sum (norm_with_otros a b c d e f g)| < 1 / 100 := by
  simp only [CatTotals.sum, norm_with_otros]
  by_cases hs : |sum_except_otros a b c d e f g| < 1 / 100
  · rw [if_pos hs]
    unfold sum_except_otros at hs
    simpa using hs
  · rw [if_neg hs]
    have hz : |a| + -|b| + -|c| + -|d| + -|e| + -|f| + -|g|
        + -sum_except_otros a b c d e f g = 0 := by
      unfold sum_except_otros
      ring
    rw [hz]
    norm_num

/-- After the `OTROS` balancing, the emitted two-decimal amounts sum to
within `0.05` of zero (eight lines, each printed within half a cent of its
value). -/
theorem norm_with_otros_emitted_le (a b c d e f g : ℚ) :
    |((format_output_from_totals (norm_with_otros a b c d e f g)).map Prod.snd).sum|
      ≤ 1 / 20 := by
  have hS := norm_with_otros_sum_lt a b c d e f g
  simp only [CatTotals.sum, norm_with_otros] at hS
  simp only [format_output_from_totals, norm_with_otros, List.map_cons, List.map_nil,
    List.sum_cons, List.sum_nil, abs_abs, abs_neg, add_zero]
  have h1 := abs_le.mp (snapRound2_err |a|)
  have h2 := abs_le.mp (snapRound2_err (-|b|))
  have h3 := abs_le.mp (snapRound2_err (-|c|))
  have h4 := abs_le.mp (snapRound2_err (-|d|))
  have h5 := abs_le.mp (snapRound2_err (-|e|))
  have h6 := abs_le.mp (snapRound2_err (-|f|))
  have h7 := abs_le.mp (snapRound2_err (-|g|))
  have h8 := abs_le.mp (otros_emit_err
    (if |sum_except_otros a b c d e f g| < 1 / 100 then 0
     else -sum_except_otros a b c d e f g))
  have hb := abs_lt.mp hS
  rw [abs_le]
  constructor
  · linarith [h1.1, h2.1, h3.1, h4.1, h5.1, h6.1, h7.1, h8.1, hb.1]
  · linarith [h1.2, h2.2, h3.2, h4.2, h5.2, h6.2, h7.2, h8.2, hb.2]

set_option maxRecDepth 8000 in
/-- Claim C1 counterexample: the reconciliation engine does not enforce the
zero-sum invariant in every branch.  The Patagonia breakdown branch emits
lines summing to `45` on a statement whose breakdown does not cover the
discount, and even the category-override branch's printed two-decimal
lines sum to `0.02` when the daily sums carry sub-cent decimals — both
beyond the claimed `0.01` tolerance. -/
theorem C1_counterexample :
    apply_pdf_overrides [] patagonia_example_totals =
      [("TOTAL PRESENTADO", 100), ("DESCUENTO GENERAL", -5), ("SALDO", -50)] ∧
    1 / 100 < |((apply_pdf_overrides [] patagonia_example_totals).map Prod.snd).sum| ∧
    1 / 100 < |((apply_pdf_overrides [] override_example_totals).map Prod.snd).sum| := by
  refine ⟨by decide, by decide, by decide⟩

/-- Claim C1 (amended): only the category-override branch enforces the
zero-sum invariant, and at the level of the balanced category totals: when
an override fires, the eight totals (with `OTROS` set to the negative of
the other seven unless those are already within `0.01` of zero) sum to
within `0.01` of zero, and the printed two-decimal ledger lines sum to
within `0.05` of zero.  The Patagonia and Banco Nación branches emit
document-derived lines without a balancing step. -/
theorem C1_amended (t : CatTotals) (pt : PdfTotals) (n : CatTotals)
    (h : override_totals t pt = some n) :
    |CatTotals.sum n| < 1 / 100 ∧
    |((format_output_from_totals n).map Prod.snd).sum| ≤ 1 / 20 := by
  unfold override_totals at h
  split at h
  · have hn := Option.some_inj.mp h
    subst hn
    exact ⟨norm_with_otros_sum_lt _ _ _ _ _ _ _, norm_with_otros_emitted_le _ _ _ _ _ _ _⟩
  · cases h

/-- Witness for the amended claim C1 at the concrete sub-cent daily sums:
the balanced totals sum to zero exactly and the printed lines to `0.02`. -/
theorem C1_amended_witness :
    |CatTotals.sum ⟨10, -3004/1000, -2004/1000, -42/100, 0, -1004/1000, -504/1000,
      -3064/1000⟩| < 1 / 100 ∧
    |((format_output_from_totals ⟨10, -3004/1000, -2004/1000, -42/100, 0, -1004/1000,
      -504/1000, -3064/1000⟩).map Prod.snd).sum| ≤ 1 / 20 :=
  C1_amended CatTotals.zero override_example_totals
    ⟨10, -3004/1000, -2004/1000, -42/100, 0, -1004/1000, -504/1000, -3064/1000⟩
    (by decide)

/-! ## Claim C4 -/

/-- The singles accumulator of the grouping loop collects exactly the files
without an extractable key, in order. -/
theorem foldl_group_step_snd (files : List FileEnt) :
    ∀ acc : List ((String × String × String) × List FileEnt) × List FileEnt,
      (files.foldl group_step acc).2
        = acc.2 ++ files.filter
            (fun f => (extract_provider_date_comprobante f.stem).isNone) := by
  induction files with
  | nil =>
    intro acc
    simp
  | cons f fs ih =>
    intro acc
    rw [List.foldl_cons, ih]
    cases h : extract_provider_date_comprobante f.stem with
    | none => simp [group_step, h, List.filter_cons]
    | some k => simp [group_step, h, List.filter_cons]

/-- Inserting into a sorted list is a permutation of consing. -/
theorem insertByB_perm (le : α → α → Bool) (x : α) (l : List α) :
    List.Perm (insertByB le x l) (x :: l) := by
  induction l with
  | nil => exact List.Perm.refl _
  | cons y ys ih =>
    unfold insertByB
    by_cases h : le x y
    · rw [if_pos h]
    · rw [if_neg h]
      exact (ih.cons y).trans (List.Perm.swap x y ys)

/-- The insertion sort permutes its input. -/
theorem sortByB_perm (le : α → α → Bool) (l : List α) :
    List.Perm (sortByB le l) l := by
  induction l with
  | nil => exact List.Perm.refl _
  | cons x xs ih =>
    have hx : sortByB le (x :: xs) = insertByB le x (sortByB le xs) := rfl
    rw [hx]
    exact (insertByB_perm le x (sortByB le xs)).trans (ih.cons x)

set_option maxRecDepth 100000 in
/-- Claim C4 counterexample: neither example filename contains a date-like
token, so the key extraction fails on both and the grouper makes each file
its own singleton group instead of grouping them together. -/
theorem C4_counterexample :
    extract_provider_date_comprobante "PROVEEDOR X FAC 0001-00001234" = none ∧
    extract_provider_date_comprobante "PROVEEDOR X 0001-00001234 pag2" = none ∧
    group_compras_candidates [file_fac_example, file_pag2_example]
      = [[file_pag2_example], [file_fac_example]] :=
  ⟨by decide, by decide, by decide⟩

set_option maxRecDepth 100000 in
/-- Claim C4 (amended): the two example files each lack an extractable date
token, so each becomes a singleton group (they do share a voucher token,
but grouping requires a date token as well); in general, every file from
whose stem no (provider, date, voucher) key can be extracted appears as a
singleton group. -/
theorem C4_amended :
    group_compras_candidates [file_fac_example, file_pag2_example]
      = [[file_pag2_example], [file_fac_example]] ∧
    ∀ (files : List FileEnt) (f : FileEnt), f ∈ files →
      extract_provider_date_comprobante f.stem = none →
      [f] ∈ group_compras_candidates files := by
  constructor
  · decide
  · intro files f hf hnone
    unfold group_compras_candidates
    rw [List.Perm.mem_iff (sortByB_perm groupOrd _)]
    apply List.mem_append_right
    rw [foldl_group_step_snd]
    exact List.mem_map.mpr
      ⟨f, List.mem_filter.mpr ⟨hf, by simp [hnone]⟩, rfl⟩

set_option maxRecDepth 16000 in
/-- Witness for the amended claim C4: a file with a tokenless stem is its
own group. -/
theorem C4_amended_witness :
    [(⟨"SOLO.pdf", "SOLO", 0⟩ : FileEnt)]
      ∈ group_compras_candidates [⟨"SOLO.pdf", "SOLO", 0⟩] :=
  C4_amended.2 [⟨"SOLO.pdf", "SOLO", 0⟩] ⟨"SOLO.pdf", "SOLO", 0⟩ (by decide) (by decide)

end AlfaDocs
